import Mathlib

/-!
Verification development for the Python client `unified_mcp_client.py`
(class `UnifiedMCPClient`) of the SwarmMCP repository.

The client is embedded shallowly:

* JSON values are an inductive `Json`; Python truthiness is `Json.truthy`.
* The mutable client object is a `Client` structure.  The only field a
  domain method branches on is `sio` (whether the real-time socket handle
  is live, i.e. `self.sio` is not `None`).
* The network is an oracle passed to each operation: an `HttpOutcome` for
  the single HTTP call of `_request`, and an `Option (Nat × Json)` for the
  socket reply of `_socket_request` (arrival time in deciseconds together
  with the reply content, or `none` when no reply ever arrives in time).
* Each operation returns a `CallResult` recording the observable effects
  (HTTP calls issued, events emitted, deciseconds slept in the poll loop)
  together with the Python outcome: a returned JSON value or a raised
  error (`Except PyError Json`).
* Time is discrete in deciseconds: `time.sleep(0.1)` advances the clock by
  exactly one decisecond and checks are instantaneous, so the configured
  timeout of `timeout` seconds is a deadline of `10 * timeout` deciseconds.
-/

namespace SwarmMCP

/-- JSON values, as produced and consumed by the client.  Python `None`
is `null`, dicts are `obj` association lists (keys unique, first match
wins for lookups). -/
inductive Json where
  | null : Json
  | bool : Bool → Json
  | num : Int → Json
  | str : String → Json
  | arr : List Json → Json
  | obj : List (String × Json) → Json

/-- Python truthiness of a value (`if x:`): `None`, `False`, `0`, `""`,
`[]`, `{}` are falsy, everything else truthy. -/
def Json.truthy : Json → Bool
  | .null => false
  | .bool b => b
  | .num n => n != 0
  | .str s => s != ""
  | .arr xs => !xs.isEmpty
  | .obj fs => !fs.isEmpty

/-- Python truthiness of an optional value (absent behaves like `None`). -/
def optTruthy : Option Json → Bool
  | none => false
  | some j => j.truthy

/-- Python `d.get(k)`: `some` of the value if the key is present, `none`
otherwise.  Reply payloads handled by the client are JSON objects (the
server wrapper `\x7bsuccess, field|error\x7d`), so non-objects yield `none`. -/
def Json.get : Json → String → Option Json
  | .obj fs, k => fs.lookup k
  | _, _ => none

/-- Errors a client call can raise.  `exception msg` is a plain
`Exception(msg)`; `keyError k` is the `KeyError` from `d[k]` on a missing
key; `typeError` is the `TypeError` from subscripting a non-dict;
`jsonDecodeError` is the error `response.json()` raises on a body that is
not valid JSON; `netError cause` is a transport failure that carries no
HTTP response and is re-raised unchanged by `_request`. -/
inductive PyError where
  | exception : String → PyError
  | keyError : String → PyError
  | typeError : PyError
  | jsonDecodeError : PyError
  | netError : String → PyError

/-- Python `d[k]` on a reply object: the value when present, `KeyError`
when absent, `TypeError` when the reply is not a dict (e.g. `None`). -/
def Json.getItem : Json → String → Except PyError Json
  | .obj fs, k =>
    match fs.lookup k with
    | some v => .ok v
    | none => .error (.keyError k)
  | _, _ => .error .typeError

/-- Escape one character the way `json.dumps` does for the characters the
client ever serializes (quote and backslash; control characters are not
modelled). -/
def escapeJsonChar (c : Char) : String :=
  if c = '"' then "\\\""
  else if c = '\\' then "\\\\"
  else String.singleton c

/-- `json.dumps` escaping of a string body. -/
def escapeJson (s : String) : String :=
  String.join (s.data.map escapeJsonChar)

mutual

/-- `json.dumps` with its default separators (`", "` between items,
`": "` after keys). -/
def Json.dumps : Json → String
  | .null => "null"
  | .bool true => "true"
  | .bool false => "false"
  | .num n => toString n
  | .str s => "\"" ++ escapeJson s ++ "\""
  | .arr xs => "[" ++ String.intercalate ", " (Json.dumpsList xs) ++ "]"
  | .obj fs => "\x7b" ++ String.intercalate ", " (Json.dumpsFields fs) ++ "\x7d"

/-- Serialization of the items of a JSON array. -/
def Json.dumpsList : List Json → List String
  | [] => []
  | x :: xs => Json.dumps x :: Json.dumpsList xs

/-- Serialization of the fields of a JSON object. -/
def Json.dumpsFields : List (String × Json) → List String
  | [] => []
  | (k, v) :: fs => ("\"" ++ escapeJson k ++ "\": " ++ Json.dumps v) :: Json.dumpsFields fs

end

/-- Python `str(x)`, as used by `raise Exception(x)` for the server error
value (`None` → `"None"`, booleans capitalised, strings verbatim;
containers are approximated by their JSON serialization). -/
def pyStr : Json → String
  | .null => "None"
  | .bool true => "True"
  | .bool false => "False"
  | .num n => toString n
  | .str s => s
  | .arr xs => Json.dumps (.arr xs)
  | .obj fs => Json.dumps (.obj fs)

/-- The client object.  `sio` is `true` exactly when `self.sio` holds a
live socket handle (it is `None` otherwise: construction disabled or
failed, or `close` was called). -/
structure Client where
  base_url : String
  api_key : Option String
  timeout : Nat
  sio : Bool

/-- The body of an HTTP response, abstracted by whether it is valid JSON:
`jsonBody j` is a body whose text parses to `j` (its text is `j.dumps`),
`rawText t` is a body that is not valid JSON (e.g. the empty body). -/
inductive Body where
  | jsonBody : Json → Body
  | rawText : String → Body

/-- The network's answer to the single HTTP call `_request` issues:
either a response with a status code and a body, or a transport failure
(`requests.exceptions.RequestException` with `response is None`, e.g.
connection refused or a transport-level timeout) carrying its cause. -/
inductive HttpOutcome where
  | response : Nat → Body → HttpOutcome
  | noResponse : String → HttpOutcome

/-- One HTTP call as issued by `_request`: verb, path, the full URL
(`f"\x7bself.base_url\x7d\x7bpath\x7d"`), optional JSON body, optional
string-keyed query params. -/
structure HttpCall where
  verb : String
  path : String
  url : String
  body : Option Json
  params : Option (List (String × String))

/-- The observable result of one client operation: the HTTP calls issued,
the socket events emitted (name and payload), the deciseconds slept in
the bridge's poll loop, and the Python outcome (return value or raised
error). -/
structure CallResult where
  httpCalls : List HttpCall
  emits : List (String × Json)
  waited : Nat
  outcome : Except PyError Json

/-- `UnifiedMCPClient._request` (source lines 130–167).  Issues the call;
on a response, `raise_for_status` raises exactly for the client/server
error band `400 ≤ status < 600`, which is caught and wrapped into
`"API error: <status> - <json.dumps body|raw text>"`; any other final
status (2xx, but also 3xx and ≥ 600) has its body parsed as JSON and
returned (a non-JSON body raises a JSON decode error, which carries no
response and is re-raised bare); a transport failure with no response
is re-raised unchanged. -/
def request (c : Client) (verb path : String) (data : Option Json)
    (params : Option (List (String × String))) (out : HttpOutcome) : CallResult :=
  let call : HttpCall := ⟨verb, path, c.base_url ++ path, data, params⟩
  match out with
  | .noResponse cause => ⟨[call], [], 0, .error (.netError cause)⟩
  | .response status body =>
      if 400 ≤ status ∧ status < 600 then
        match body with
        | .jsonBody j =>
            ⟨[call], [], 0,
              .error (.exception ("API error: " ++ toString status ++ " - " ++ Json.dumps j))⟩
        | .rawText t =>
            ⟨[call], [], 0,
              .error (.exception ("API error: " ++ toString status ++ " - " ++ t))⟩
      else
        match body with
        | .jsonBody j => ⟨[call], [], 0, .ok j⟩
        | .rawText _ => ⟨[call], [], 0, .error .jsonDecodeError⟩

/-- The busy-wait loop of `_socket_request` (source lines 199–201):
`while not response_received and time.time() < timeout_time:
time.sleep(0.1)`.  `f t` is whether the reply has arrived by decisecond
`t`; `fuel` is the deciseconds left to the deadline.  Returns the
decisecond at which the loop exits. -/
def pollLoop (f : Nat → Bool) : Nat → Nat → Nat
  | t, 0 => t
  | t, fuel + 1 => if f t then t else pollLoop f (t + 1) fuel

/-- `UnifiedMCPClient._socket_request` (source lines 169–209).  With no
live socket it raises immediately; otherwise it emits the event with the
payload (`data or \x7b\x7d`) and polls until the reply arrives or the deadline
`10 * timeout` deciseconds passes.  A missing reply raises the timeout
error naming the event.  An arrived reply `r` runs the callback: truthy
`r.get "success"` stores `r` as the response; otherwise the error value
`r.get "error"` (defaulted to `"Unknown error"` when the key is absent)
is stored and, when truthy, raised; a falsy stored error value makes the
function fall through and return the unset response, i.e. `None`. -/
def socket_request (c : Client) (event : String) (data : Option Json)
    (reply : Option (Nat × Json)) : CallResult :=
  if c.sio then
    let deadline := 10 * c.timeout
    let emitted := [(event, data.getD (.obj []))]
    match reply with
    | none =>
        let tExit := pollLoop (fun _ => false) 0 deadline
        ⟨[], emitted, tExit,
          .error (.exception ("WebSocket request timeout for event: " ++ event))⟩
    | some (a, r) =>
        let tExit := pollLoop (fun t => decide (a ≤ t)) 0 deadline
        if a ≤ tExit then
          if optTruthy (r.get "success") then
            ⟨[], emitted, tExit, .ok r⟩
          else
            let e := (r.get "error").getD (.str "Unknown error")
            if e.truthy then
              ⟨[], emitted, tExit, .error (.exception (pyStr e))⟩
            else
              ⟨[], emitted, tExit, .ok .null⟩
        else
          ⟨[], emitted, tExit,
            .error (.exception ("WebSocket request timeout for event: " ++ event))⟩
  else
    ⟨[], [], 0, .error (.exception "WebSocket is not enabled or connected")⟩

/-- Field extraction after a socket exchange: `response = self._socket_request(...);
return response[field]`.  A raised error propagates; a returned value is
subscripted. -/
def extract (field : String) (r : CallResult) : CallResult :=
  match r.outcome with
  | .ok j => { r with outcome := j.getItem field }
  | .error _ => r

/-- Python `x or y` on an optional JSON value (used for `data or \x7b\x7d`,
`dependencies or []`, `parameters or \x7b\x7d`): the value when present and
truthy, the default otherwise. -/
def orDefault (x : Option Json) (d : Json) : Json :=
  match x with
  | none => d
  | some j => if j.truthy then j else d

/-- `UnifiedMCPClient.health` (lines 211–218): always a plain
`GET /health` through `_request` — it does not look at `self.sio`. -/
def health (c : Client) (out : HttpOutcome) : CallResult :=
  request c "GET" "/health" none none out

/-- `UnifiedMCPClient.create_agent` (lines 222–236). -/
def create_agent (c : Client) (config : Json)
    (reply : Option (Nat × Json)) (out : HttpOutcome) : CallResult :=
  if c.sio then
    extract "agent" (socket_request c "agent:create" (some config) reply)
  else
    request c "POST" "/api/v1/agents" (some config) none out

/-- `UnifiedMCPClient.get_agent` (lines 238–252). -/
def get_agent (c : Client) (agent_id : String)
    (reply : Option (Nat × Json)) (out : HttpOutcome) : CallResult :=
  if c.sio then
    extract "agent"
      (socket_request c "agent:get" (some (.obj [("agentId", .str agent_id)])) reply)
  else
    request c "GET" ("/api/v1/agents/" ++ agent_id) none none out

/-- `UnifiedMCPClient.list_agents` (lines 254–271).  The socket payload is
`\x7b"filter": filter\x7d` (possibly `null`); on the HTTP side the params dict
gets a `json.dumps`-encoded `filter` entry only when `filter` is truthy. -/
def list_agents (c : Client) (filter : Option Json)
    (reply : Option (Nat × Json)) (out : HttpOutcome) : CallResult :=
  if c.sio then
    extract "agents"
      (socket_request c "agent:list" (some (.obj [("filter", filter.getD .null)])) reply)
  else
    let params : List (String × String) :=
      match filter with
      | some j => if j.truthy then [("filter", Json.dumps j)] else []
      | none => []
    request c "GET" "/api/v1/agents" none (some params) out

/-- `UnifiedMCPClient.update_agent` (lines 273–288). -/
def update_agent (c : Client) (agent_id : String) (config : Json)
    (reply : Option (Nat × Json)) (out : HttpOutcome) : CallResult :=
  if c.sio then
    extract "agent"
      (socket_request c "agent:update"
        (some (.obj [("agentId", .str agent_id), ("config", config)])) reply)
  else
    request c "PUT" ("/api/v1/agents/" ++ agent_id) (some config) none out

/-- `UnifiedMCPClient.delete_agent` (lines 290–305).  The socket branch
returns `response['success']`; the HTTP branch issues the DELETE (any
raised error propagating) and then returns `True`. -/
def delete_agent (c : Client) (agent_id : String)
    (reply : Option (Nat × Json)) (out : HttpOutcome) : CallResult :=
  if c.sio then
    extract "success"
      (socket_request c "agent:delete" (some (.obj [("agentId", .str agent_id)])) reply)
  else
    let r := request c "DELETE" ("/api/v1/agents/" ++ agent_id) none none out
    match r.outcome with
    | .ok _ => { r with outcome := .ok (.bool true) }
    | .error _ => r

/-- `UnifiedMCPClient.run_agent` (lines 307–322). -/
def run_agent (c : Client) (agent_id : String) (task : String)
    (reply : Option (Nat × Json)) (out : HttpOutcome) : CallResult :=
  if c.sio then
    extract "result"
      (socket_request c "agent:run"
        (some (.obj [("agentId", .str agent_id), ("task", .str task)])) reply)
  else
    request c "POST" ("/api/v1/agents/" ++ agent_id ++ "/run")
      (some (.obj [("task", .str task)])) none out

/-- `UnifiedMCPClient.create_task` (lines 326–348).  Both branches share
the same body `\x7btitle, description, dependencies or []\x7d`. -/
def create_task (c : Client) (title description : String) (dependencies : Option Json)
    (reply : Option (Nat × Json)) (out : HttpOutcome) : CallResult :=
  let data : Json := .obj
    [("title", .str title), ("description", .str description),
     ("dependencies", orDefault dependencies (.arr []))]
  if c.sio then
    extract "task" (socket_request c "task:create" (some data) reply)
  else
    request c "POST" "/api/v1/tasks" (some data) none out

/-- `UnifiedMCPClient.get_task` (lines 350–364). -/
def get_task (c : Client) (task_id : String)
    (reply : Option (Nat × Json)) (out : HttpOutcome) : CallResult :=
  if c.sio then
    extract "task"
      (socket_request c "task:get" (some (.obj [("taskId", .str task_id)])) reply)
  else
    request c "GET" ("/api/v1/tasks/" ++ task_id) none none out

/-- `UnifiedMCPClient.list_tasks` (lines 366–383). -/
def list_tasks (c : Client) (filter : Option Json)
    (reply : Option (Nat × Json)) (out : HttpOutcome) : CallResult :=
  if c.sio then
    extract "tasks"
      (socket_request c "task:list" (some (.obj [("filter", filter.getD .null)])) reply)
  else
    let params : List (String × String) :=
      match filter with
      | some j => if j.truthy then [("filter", Json.dumps j)] else []
      | none => []
    request c "GET" "/api/v1/tasks" none (some params) out

/-- `UnifiedMCPClient.update_task` (lines 385–400). -/
def update_task (c : Client) (task_id : String) (updates : Json)
    (reply : Option (Nat × Json)) (out : HttpOutcome) : CallResult :=
  if c.sio then
    extract "task"
      (socket_request c "task:update"
        (some (.obj [("taskId", .str task_id), ("updates", updates)])) reply)
  else
    request c "PUT" ("/api/v1/tasks/" ++ task_id) (some updates) none out

/-- `UnifiedMCPClient.delete_task` (lines 402–417): same shape as
`delete_agent`. -/
def delete_task (c : Client) (task_id : String)
    (reply : Option (Nat × Json)) (out : HttpOutcome) : CallResult :=
  if c.sio then
    extract "success"
      (socket_request c "task:delete" (some (.obj [("taskId", .str task_id)])) reply)
  else
    let r := request c "DELETE" ("/api/v1/tasks/" ++ task_id) none none out
    match r.outcome with
    | .ok _ => { r with outcome := .ok (.bool true) }
    | .error _ => r

/-- `UnifiedMCPClient.add_dependency` (lines 419–439). -/
def add_dependency (c : Client) (task_id depends_on_task_id : String)
    (reply : Option (Nat × Json)) (out : HttpOutcome) : CallResult :=
  if c.sio then
    extract "task"
      (socket_request c "task:addDependency"
        (some (.obj [("taskId", .str task_id),
                     ("dependsOnTaskId", .str depends_on_task_id)])) reply)
  else
    request c "POST" ("/api/v1/tasks/" ++ task_id ++ "/dependencies")
      (some (.obj [("dependsOnTaskId", .str depends_on_task_id)])) none out

/-- `UnifiedMCPClient.remove_dependency` (lines 441–459). -/
def remove_dependency (c : Client) (task_id depends_on_task_id : String)
    (reply : Option (Nat × Json)) (out : HttpOutcome) : CallResult :=
  if c.sio then
    extract "task"
      (socket_request c "task:removeDependency"
        (some (.obj [("taskId", .str task_id),
                     ("dependsOnTaskId", .str depends_on_task_id)])) reply)
  else
    request c "DELETE"
      ("/api/v1/tasks/" ++ task_id ++ "/dependencies/" ++ depends_on_task_id)
      none none out

/-- `UnifiedMCPClient.get_next_task` (lines 461–472). -/
def get_next_task (c : Client)
    (reply : Option (Nat × Json)) (out : HttpOutcome) : CallResult :=
  if c.sio then
    extract "task" (socket_request c "task:getNext" (some (.obj [])) reply)
  else
    request c "GET" "/api/v1/tasks/next" none none out

/-- `UnifiedMCPClient.list_tools` (lines 476–487). -/
def list_tools (c : Client)
    (reply : Option (Nat × Json)) (out : HttpOutcome) : CallResult :=
  if c.sio then
    extract "tools" (socket_request c "tool:list" (some (.obj [])) reply)
  else
    request c "GET" "/api/v1/tools" none none out

/-- `UnifiedMCPClient.execute_tool` (lines 489–509). -/
def execute_tool (c : Client) (name : String) (parameters : Option Json)
    (reply : Option (Nat × Json)) (out : HttpOutcome) : CallResult :=
  if c.sio then
    extract "result"
      (socket_request c "tool:execute"
        (some (.obj [("name", .str name),
                     ("parameters", orDefault parameters (.obj []))])) reply)
  else
    request c "POST" ("/api/v1/tools/" ++ name ++ "/execute")
      (some (.obj [("parameters", orDefault parameters (.obj []))])) none out

/-- `UnifiedMCPClient.close` (lines 511–515): disconnect the socket if
live and set the handle to `None`.  No other method ever reassigns
`self.sio`, so the model's methods take the client unchanged. -/
def close (c : Client) : Client :=
  if c.sio then { c with sio := false } else c

/-- The event-handler registry `self.event_handlers`: a dict from event
name to the ordered list of registered handlers.  Handlers are opaque
references compared by identity, modelled as `Nat` identifiers. -/
def Registry : Type := String → Option (List Nat)

/-- `UnifiedMCPClient.on` (lines 86–97): create the list if the event is
unregistered, then append the handler (duplicates allowed). -/
def «on» (reg : Registry) (event : String) (h : Nat) : Registry :=
  fun e => if e = event then some ((reg event).getD [] ++ [h]) else reg e

/-- `UnifiedMCPClient.off` (lines 99–111): no-op when the event is
unregistered or the handler is not in its list; otherwise
`list.remove(handler)` deletes the first occurrence (identity match). -/
def off (reg : Registry) (event : String) (h : Nat) : Registry :=
  match reg event with
  | none => reg
  | some l =>
      if h ∈ l then
        fun e => if e = event then some (l.erase h) else reg e
      else reg

/-- The body of `_trigger_event`'s loop (lines 124–128): invoke each
handler in order inside `try/except`; a raising handler is recorded in
the locally-logged error list and the loop continues.  `run` is the
behaviour of each handler (normal return or raised message).  Returns
the handlers invoked, in order, and the logged failures. -/
def runHandlers (run : Nat → Except String Unit) :
    List Nat → List Nat × List (Nat × String)
  | [] => ([], [])
  | h :: rest =>
      let logged : List (Nat × String) :=
        match run h with
        | .ok _ => []
        | .error m => [(h, m)]
      let r := runHandlers run rest
      (h :: r.1, logged ++ r.2)

/-- `UnifiedMCPClient._trigger_event` (lines 113–128): nothing happens
for an unregistered event; otherwise every registered handler runs. -/
def trigger_event (reg : Registry) (run : Nat → Except String Unit)
    (event : String) : List Nat × List (Nat × String) :=
  match reg event with
  | none => ([], [])
  | some l => runHandlers run l

/-! ### Helper lemmas and fixtures -/

/-- Substring containment: `sub` occurs contiguously in `s`. -/
def Contains (s sub : String) : Prop :=
  ∃ p q, s = p ++ sub ++ q

/-- A successful server reply wrapper carrying the named field. -/
def okReply (field : String) (v : Json) : Json :=
  .obj [("success", .bool true), (field, v)]

/-- A client with a live real-time connection. -/
def clientOn : Client :=
  ⟨"http://localhost", none, 30, true⟩

/-- A client whose real-time connection is absent. -/
def clientOff : Client :=
  ⟨"http://localhost", none, 30, false⟩

/-- A successful HTTP outcome with a JSON body. -/
def outOk : HttpOutcome :=
  .response 200 (.jsonBody (.obj [("x", .num 1)]))

/-- If the reply has already arrived when the loop starts, the loop exits
immediately. -/
theorem pollLoop_arrived (a t fuel : Nat) (h : a ≤ t) :
    pollLoop (fun s => decide (a ≤ s)) t fuel = t := by
  cases fuel with
  | zero => rfl
  | succ n => simp [pollLoop, h]

/-- A check that is already true exits the loop at once. -/
theorem pollLoop_const_true (t fuel : Nat) : pollLoop (fun _ => true) t fuel = t := by
  cases fuel <;> simp [pollLoop]

/-- With no reply ever arriving, the loop sleeps through all its fuel:
it exits exactly at the deadline. -/
theorem pollLoop_const_false (fuel t : Nat) :
    pollLoop (fun _ => false) t fuel = t + fuel := by
  induction fuel generalizing t with
  | zero => simp [pollLoop]
  | succ n ih => simp [pollLoop, ih]; omega

/-- The dispatch loop invokes every handler of the list, in order,
whatever each handler does. -/
theorem runHandlers_fst (run : Nat → Except String Unit) (l : List Nat) :
    (runHandlers run l).1 = l := by
  induction l with
  | nil => rfl
  | cons h rest ih => simp [runHandlers, ih]

/-- The locally logged failures of the dispatch loop are exactly the
handlers whose invocation raised, with their messages. -/
theorem runHandlers_snd (run : Nat → Except String Unit) (l : List Nat) :
    (runHandlers run l).2 = l.filterMap
      (fun h => match run h with | .ok _ => none | .error m => some (h, m)) := by
  induction l with
  | nil => rfl
  | cons h rest ih =>
      cases hr : run h <;> simp [runHandlers, hr, ih, List.filterMap_cons]

/-- The real-time branch of every branching domain method: one emitted
event with the documented colon-namespaced name and payload, no HTTP
call, no wait for an immediate reply, and the documented field extracted
from the successful reply (`delete_*` return the reply's `success`
field). -/
def SocketDispatch (c : Client) (v : Json) : Prop :=
  (∀ config out, create_agent c config (some (0, okReply "agent" v)) out =
    ⟨[], [("agent:create", config)], 0, .ok v⟩) ∧
  (∀ agent_id out, get_agent c agent_id (some (0, okReply "agent" v)) out =
    ⟨[], [("agent:get", .obj [("agentId", .str agent_id)])], 0, .ok v⟩) ∧
  (∀ filter out, list_agents c filter (some (0, okReply "agents" v)) out =
    ⟨[], [("agent:list", .obj [("filter", filter.getD .null)])], 0, .ok v⟩) ∧
  (∀ agent_id config out,
    update_agent c agent_id config (some (0, okReply "agent" v)) out =
      ⟨[], [("agent:update", .obj [("agentId", .str agent_id), ("config", config)])],
        0, .ok v⟩) ∧
  (∀ agent_id out,
    delete_agent c agent_id (some (0, .obj [("success", .bool true)])) out =
      ⟨[], [("agent:delete", .obj [("agentId", .str agent_id)])], 0, .ok (.bool true)⟩) ∧
  (∀ agent_id task out,
    run_agent c agent_id task (some (0, okReply "result" v)) out =
      ⟨[], [("agent:run", .obj [("agentId", .str agent_id), ("task", .str task)])],
        0, .ok v⟩) ∧
  (∀ title description deps out,
    create_task c title description deps (some (0, okReply "task" v)) out =
      ⟨[], [("task:create",
             .obj [("title", .str title), ("description", .str description),
                   ("dependencies", orDefault deps (.arr []))])], 0, .ok v⟩) ∧
  (∀ task_id out, get_task c task_id (some (0, okReply "task" v)) out =
    ⟨[], [("task:get", .obj [("taskId", .str task_id)])], 0, .ok v⟩) ∧
  (∀ filter out, list_tasks c filter (some (0, okReply "tasks" v)) out =
    ⟨[], [("task:list", .obj [("filter", filter.getD .null)])], 0, .ok v⟩) ∧
  (∀ task_id updates out,
    update_task c task_id updates (some (0, okReply "task" v)) out =
      ⟨[], [("task:update", .obj [("taskId", .str task_id), ("updates", updates)])],
        0, .ok v⟩) ∧
  (∀ task_id out,
    delete_task c task_id (some (0, .obj [("success", .bool true)])) out =
      ⟨[], [("task:delete", .obj [("taskId", .str task_id)])], 0, .ok (.bool true)⟩) ∧
  (∀ task_id dep out,
    add_dependency c task_id dep (some (0, okReply "task" v)) out =
      ⟨[], [("task:addDependency",
             .obj [("taskId", .str task_id), ("dependsOnTaskId", .str dep)])], 0, .ok v⟩) ∧
  (∀ task_id dep out,
    remove_dependency c task_id dep (some (0, okReply "task" v)) out =
      ⟨[], [("task:removeDependency",
             .obj [("taskId", .str task_id), ("dependsOnTaskId", .str dep)])], 0, .ok v⟩) ∧
  (∀ out, get_next_task c (some (0, okReply "task" v)) out =
    ⟨[], [("task:getNext", .obj [])], 0, .ok v⟩) ∧
  (∀ out, list_tools c (some (0, okReply "tools" v)) out =
    ⟨[], [("tool:list", .obj [])], 0, .ok v⟩) ∧
  (∀ name params out,
    execute_tool c name params (some (0, okReply "result" v)) out =
      ⟨[], [("tool:execute",
             .obj [("name", .str name), ("parameters", orDefault params (.obj []))])],
        0, .ok v⟩)

/-- The HTTP branch of every domain method: the call is delegated to
`_request` with the documented verb, path, body and query, the result
returned directly — except `delete_*`, which issue the DELETE and then
return `True` (propagating any raised error). -/
def HttpDispatch (c : Client) : Prop :=
  (∀ out, health c out = request c "GET" "/health" none none out) ∧
  (∀ config reply out, create_agent c config reply out =
    request c "POST" "/api/v1/agents" (some config) none out) ∧
  (∀ agent_id reply out, get_agent c agent_id reply out =
    request c "GET" ("/api/v1/agents/" ++ agent_id) none none out) ∧
  (∀ filter reply out, list_agents c filter reply out =
    request c "GET" "/api/v1/agents" none
      (some (match filter with
             | some j => if j.truthy then [("filter", Json.dumps j)] else []
             | none => [])) out) ∧
  (∀ agent_id config reply out, update_agent c agent_id config reply out =
    request c "PUT" ("/api/v1/agents/" ++ agent_id) (some config) none out) ∧
  (∀ agent_id reply out, delete_agent c agent_id reply out =
    (let r := request c "DELETE" ("/api/v1/agents/" ++ agent_id) none none out
     match r.outcome with
     | .ok _ => { r with outcome := .ok (.bool true) }
     | .error _ => r)) ∧
  (∀ agent_id task reply out, run_agent c agent_id task reply out =
    request c "POST" ("/api/v1/agents/" ++ agent_id ++ "/run")
      (some (.obj [("task", .str task)])) none out) ∧
  (∀ title description deps reply out, create_task c title description deps reply out =
    request c "POST" "/api/v1/tasks"
      (some (.obj [("title", .str title), ("description", .str description),
                   ("dependencies", orDefault deps (.arr []))])) none out) ∧
  (∀ task_id reply out, get_task c task_id reply out =
    request c "GET" ("/api/v1/tasks/" ++ task_id) none none out) ∧
  (∀ filter reply out, list_tasks c filter reply out =
    request c "GET" "/api/v1/tasks" none
      (some (match filter with
             | some j => if j.truthy then [("filter", Json.dumps j)] else []
             | none => [])) out) ∧
  (∀ task_id updates reply out, update_task c task_id updates reply out =
    request c "PUT" ("/api/v1/tasks/" ++ task_id) (some updates) none out) ∧
  (∀ task_id reply out, delete_task c task_id reply out =
    (let r := request c "DELETE" ("/api/v1/tasks/" ++ task_id) none none out
     match r.outcome with
     | .ok _ => { r with outcome := .ok (.bool true) }
     | .error _ => r)) ∧
  (∀ task_id dep reply out, add_dependency c task_id dep reply out =
    request c "POST" ("/api/v1/tasks/" ++ task_id ++ "/dependencies")
      (some (.obj [("dependsOnTaskId", .str dep)])) none out) ∧
  (∀ task_id dep reply out, remove_dependency c task_id dep reply out =
    request c "DELETE" ("/api/v1/tasks/" ++ task_id ++ "/dependencies/" ++ dep)
      none none out) ∧
  (∀ reply out, get_next_task c reply out =
    request c "GET" "/api/v1/tasks/next" none none out) ∧
  (∀ reply out, list_tools c reply out =
    request c "GET" "/api/v1/tools" none none out) ∧
  (∀ name params reply out, execute_tool c name params reply out =
    request c "POST" ("/api/v1/tools/" ++ name ++ "/execute")
      (some (.obj [("parameters", orDefault params (.obj []))])) none out)

/-- Missing-field behaviour of every facade method that extracts a named
field over the real-time path: for any reply object with a truthy
`success` flag that lacks the method's expected field, the method
raises the key-lookup error for that field rather than returning `None`
or a default.  `delete_agent`/`delete_task` extract the `success` flag
itself, which a truthy-success reply can never lack: their extraction
returns exactly the flag's value. -/
def MissingFieldRaises (c : Client) : Prop :=
  (∀ fs config out, optTruthy (Json.get (.obj fs) "success") = true →
    fs.lookup "agent" = none →
    (create_agent c config (some (0, .obj fs)) out).outcome =
      .error (.keyError "agent")) ∧
  (∀ fs agent_id out, optTruthy (Json.get (.obj fs) "success") = true →
    fs.lookup "agent" = none →
    (get_agent c agent_id (some (0, .obj fs)) out).outcome =
      .error (.keyError "agent")) ∧
  (∀ fs filter out, optTruthy (Json.get (.obj fs) "success") = true →
    fs.lookup "agents" = none →
    (list_agents c filter (some (0, .obj fs)) out).outcome =
      .error (.keyError "agents")) ∧
  (∀ fs agent_id config out, optTruthy (Json.get (.obj fs) "success") = true →
    fs.lookup "agent" = none →
    (update_agent c agent_id config (some (0, .obj fs)) out).outcome =
      .error (.keyError "agent")) ∧
  (∀ fs v agent_id out, fs.lookup "success" = some v → v.truthy = true →
    (delete_agent c agent_id (some (0, .obj fs)) out).outcome = .ok v) ∧
  (∀ fs agent_id task out, optTruthy (Json.get (.obj fs) "success") = true →
    fs.lookup "result" = none →
    (run_agent c agent_id task (some (0, .obj fs)) out).outcome =
      .error (.keyError "result")) ∧
  (∀ fs title description deps out, optTruthy (Json.get (.obj fs) "success") = true →
    fs.lookup "task" = none →
    (create_task c title description deps (some (0, .obj fs)) out).outcome =
      .error (.keyError "task")) ∧
  (∀ fs task_id out, optTruthy (Json.get (.obj fs) "success") = true →
    fs.lookup "task" = none →
    (get_task c task_id (some (0, .obj fs)) out).outcome =
      .error (.keyError "task")) ∧
  (∀ fs filter out, optTruthy (Json.get (.obj fs) "success") = true →
    fs.lookup "tasks" = none →
    (list_tasks c filter (some (0, .obj fs)) out).outcome =
      .error (.keyError "tasks")) ∧
  (∀ fs task_id updates out, optTruthy (Json.get (.obj fs) "success") = true →
    fs.lookup "task" = none →
    (update_task c task_id updates (some (0, .obj fs)) out).outcome =
      .error (.keyError "task")) ∧
  (∀ fs v task_id out, fs.lookup "success" = some v → v.truthy = true →
    (delete_task c task_id (some (0, .obj fs)) out).outcome = .ok v) ∧
  (∀ fs task_id dep out, optTruthy (Json.get (.obj fs) "success") = true →
    fs.lookup "task" = none →
    (add_dependency c task_id dep (some (0, .obj fs)) out).outcome =
      .error (.keyError "task")) ∧
  (∀ fs task_id dep out, optTruthy (Json.get (.obj fs) "success") = true →
    fs.lookup "task" = none →
    (remove_dependency c task_id dep (some (0, .obj fs)) out).outcome =
      .error (.keyError "task")) ∧
  (∀ fs out, optTruthy (Json.get (.obj fs) "success") = true →
    fs.lookup "task" = none →
    (get_next_task c (some (0, .obj fs)) out).outcome =
      .error (.keyError "task")) ∧
  (∀ fs out, optTruthy (Json.get (.obj fs) "success") = true →
    fs.lookup "tools" = none →
    (list_tools c (some (0, .obj fs)) out).outcome =
      .error (.keyError "tools")) ∧
  (∀ fs name params out, optTruthy (Json.get (.obj fs) "success") = true →
    fs.lookup "result" = none →
    (execute_tool c name params (some (0, .obj fs)) out).outcome =
      .error (.keyError "result")) ∧
  (∀ fs config out, optTruthy (Json.get (.obj fs) "success") = true →
    fs.lookup "agent" = none →
    (create_agent c config (some (0, .obj fs)) out).outcome ≠ .ok .null)

/-- With the socket live, every branching method takes the real-time
branch. -/
theorem socketDispatch_of_sio (c : Client) (hs : c.sio = true) (v : Json) :
    SocketDispatch c v := by
  refine ⟨?_, ?_, ?_, ?_, ?_, ?_, ?_, ?_, ?_, ?_, ?_, ?_, ?_, ?_, ?_, ?_⟩ <;>
    intros <;>
    simp [create_agent, get_agent, list_agents, update_agent, delete_agent, run_agent,
      create_task, get_task, list_tasks, update_task, delete_task, add_dependency,
      remove_dependency, get_next_task, list_tools, execute_tool,
      socket_request, extract, okReply, hs, pollLoop_arrived, pollLoop_const_true,
      optTruthy, Json.truthy, Json.get, Json.getItem, List.lookup]

/-- With no socket handle, every method goes through `_request`. -/
theorem httpDispatch_of_no_sio (c : Client) (hh : c.sio = false) :
    HttpDispatch c := by
  refine ⟨?_, ?_, ?_, ?_, ?_, ?_, ?_, ?_, ?_, ?_, ?_, ?_, ?_, ?_, ?_, ?_, ?_⟩ <;>
    intros <;>
    simp [health, create_agent, get_agent, list_agents, update_agent, delete_agent,
      run_agent, create_task, get_task, list_tasks, update_task, delete_task,
      add_dependency, remove_dependency, get_next_task, list_tools, execute_tool, hh]

/-- With no socket handle, the bridge raises at once: nothing emitted,
no wait. -/
theorem socket_fail_of_no_sio (c : Client) (hh : c.sio = false)
    (event : String) (data : Option Json) (reply : Option (Nat × Json)) :
    socket_request c event data reply =
      ⟨[], [], 0, .error (.exception "WebSocket is not enabled or connected")⟩ := by
  simp [socket_request, hh]

/-! ### Claims -/

/-- C1, counterexample: the claim says *every* domain method, including
`health`, branches on the live connection and uses the Synchronous
Bridge when it is active, and that the REST branch returns `_request`'s
result directly.  Neither holds: with the socket active, `health` still
emits nothing and issues the REST `GET /health`; and over HTTP,
`delete_agent` returns `True`, not the parsed response body
`\x7b"x": 1\x7d`. -/
theorem health_ignores_socket_counterexample :
    clientOn.sio = true ∧
    (health clientOn outOk).emits = [] ∧
    (health clientOn outOk).httpCalls =
      [⟨"GET", "/health", "http://localhost/health", none, none⟩] ∧
    clientOff.sio = false ∧
    (delete_agent clientOff "a1" none outOk).outcome = .ok (.bool true) ∧
    (delete_agent clientOff "a1" none outOk).outcome ≠ .ok (.obj [("x", .num 1)]) := by
  refine ⟨rfl, rfl, rfl, rfl, rfl, ?_⟩
  intro h
  simp [delete_agent, request, clientOff, outOk] at h

/-- C1 (amended): every domain method except `health` branches on
whether the real-time connection is active — if active it emits the
colon-namespaced event with the documented payload through the
Synchronous Bridge and returns the extracted named field of a
successful reply, otherwise it issues the documented REST verb/path via
`_request`, returning its result directly except `delete_agent` and
`delete_task`, which return `True` after a successful call; `health`
always issues the REST `GET /health`, even when real-time is active. -/
theorem domain_method_dispatch (con coff : Client) (hs : con.sio = true)
    (hh : coff.sio = false) (v : Json) :
    (∀ out, health con out = request con "GET" "/health" none none out) ∧
    SocketDispatch con v ∧ HttpDispatch coff :=
  ⟨fun _ => rfl, socketDispatch_of_sio con hs v, httpDispatch_of_no_sio coff hh⟩

/-- C1 witness: the amended dispatch pattern at the concrete clients. -/
theorem domain_method_dispatch_witness :
    (∀ out, health clientOn out = request clientOn "GET" "/health" none none out) ∧
    SocketDispatch clientOn (Json.str "A") ∧ HttpDispatch clientOff :=
  domain_method_dispatch clientOn clientOff rfl rfl (Json.str "A")

/-- C2, counterexample: over HTTP, a successful (2xx) response with an
empty body does NOT make `delete_agent`/`delete_task` return `True`:
`_request` unconditionally parses the body as JSON, so the empty body
raises a JSON decode error that propagates. -/
theorem delete_empty_body_counterexample :
    clientOff.sio = false ∧
    (delete_agent clientOff "a1" none (.response 200 (.rawText ""))).outcome =
      .error .jsonDecodeError ∧
    (delete_task clientOff "t1" none (.response 204 (.rawText ""))).outcome =
      .error .jsonDecodeError :=
  ⟨rfl, rfl, rfl⟩

/-- C2 (amended): over HTTP, `delete_agent` and `delete_task` return
`True` after any successful (2xx) response whose body is valid JSON,
whatever that body holds; a 2xx response whose body is not valid JSON
(in particular an empty body) instead raises the JSON decode error. -/
theorem delete_http_returns_true (c : Client) (hh : c.sio = false)
    (status : Nat) (hst : status < 400) (j : Json) (t : String) :
    (∀ agent_id reply,
      (delete_agent c agent_id reply (.response status (.jsonBody j))).outcome =
        .ok (.bool true)) ∧
    (∀ task_id reply,
      (delete_task c task_id reply (.response status (.jsonBody j))).outcome =
        .ok (.bool true)) ∧
    (∀ agent_id reply,
      (delete_agent c agent_id reply (.response status (.rawText t))).outcome =
        .error .jsonDecodeError) ∧
    (∀ task_id reply,
      (delete_task c task_id reply (.response status (.rawText t))).outcome =
        .error .jsonDecodeError) := by
  have hnot : ¬ (400 ≤ status ∧ status < 600) := by omega
  refine ⟨?_, ?_, ?_, ?_⟩ <;> intros <;>
    simp [delete_agent, delete_task, request, hh, hnot]

/-- C2 witness: the amended behaviour at concrete inputs. -/
theorem delete_http_returns_true_witness :
    (delete_agent clientOff "a1" none
      (.response 200 (.jsonBody (.obj [])))).outcome = .ok (.bool true) :=
  (delete_http_returns_true clientOff rfl 200 (by decide) (.obj []) "").1 "a1" none

/-- C3, counterexample: a reply whose `success` is falsy and whose
`error` value is falsy (here the empty string) does NOT make
`_socket_request` raise: `if response_error:` is false, so the call
falls through and returns the unset response, i.e. `None`. -/
theorem socket_falsy_error_counterexample :
    (socket_request clientOn "agent:create" (some (.obj []))
      (some (0, .obj [("success", .bool false), ("error", .str "")]))).outcome =
    .ok .null := rfl

/-- C3 (amended): when `_socket_request` receives a reply whose
`success` flag is falsy, it raises the server-provided error message
when that value is truthy — in particular a reply
`\x7bsuccess: false, error: "X"\x7d` fails with message `"X"` — and raises the
generic `"Unknown error"` when the reply carries no `error` key; but
when the reply carries a falsy `error` value (such as the empty
string), the call raises nothing and returns `None`. -/
theorem socket_error_reply (c : Client) (hs : c.sio = true) (event : String)
    (data : Option Json) (r : Json) (hfail : optTruthy (r.get "success") = false) :
    (((r.get "error").getD (.str "Unknown error")).truthy = true →
      (socket_request c event data (some (0, r))).outcome =
        .error (.exception (pyStr ((r.get "error").getD (.str "Unknown error"))))) ∧
    (r.get "error" = none →
      (socket_request c event data (some (0, r))).outcome =
        .error (.exception "Unknown error")) ∧
    (∀ m : String, r.get "error" = some (.str m) → m ≠ "" →
      (socket_request c event data (some (0, r))).outcome =
        .error (.exception m)) ∧
    (((r.get "error").getD (.str "Unknown error")).truthy = false →
      (socket_request c event data (some (0, r))).outcome = .ok .null) := by
  refine ⟨?_, ?_, ?_, ?_⟩
  · intro ht
    simp [socket_request, hs, pollLoop_arrived, pollLoop_const_true, hfail, ht]
  · intro hnone
    simp [socket_request, hs, pollLoop_arrived, pollLoop_const_true, hfail, hnone,
      Json.truthy, pyStr]
  · intro m hm hne
    simp [socket_request, hs, pollLoop_arrived, pollLoop_const_true, hfail, hm,
      Json.truthy, pyStr, hne]
  · intro hf
    simp [socket_request, hs, pollLoop_arrived, pollLoop_const_true, hfail, hf]

/-- C3 witness: a reply `\x7bsuccess: false, error: "X"\x7d` makes the call
fail with message `"X"`. -/
theorem socket_error_reply_witness :
    (socket_request clientOn "agent:create" (some (.obj []))
      (some (0, .obj [("success", .bool false), ("error", .str "X")]))).outcome =
    .error (.exception "X") :=
  (socket_error_reply clientOn rfl "agent:create" (some (.obj []))
    (.obj [("success", .bool false), ("error", .str "X")]) rfl).2.2.1 "X" rfl
    (by decide)

/-- C4: when no reply arrives, `_socket_request` waits exactly the
configured timeout (`10 * timeout` deciseconds of `0.1 s` sleeps — not
before the deadline, and not beyond the first check past it in this
discrete-time model) and then raises an error whose message names the
event. -/
theorem socket_timeout (c : Client) (hs : c.sio = true) (event : String)
    (data : Option Json) :
    socket_request c event data none =
      ⟨[], [(event, data.getD (.obj []))], 10 * c.timeout,
        .error (.exception ("WebSocket request timeout for event: " ++ event))⟩ ∧
    Contains ("WebSocket request timeout for event: " ++ event) event := by
  constructor
  · simp [socket_request, hs, pollLoop_const_false]
  · exact ⟨"WebSocket request timeout for event: ", "", (String.append_empty _).symm⟩

/-- C4 witness: a 30-second client waits 300 deciseconds for the event
`agent:create` and raises the timeout error naming it. -/
theorem socket_timeout_witness :
    socket_request clientOn "agent:create" none none =
      ⟨[], [("agent:create", .obj [])], 10 * clientOn.timeout,
        .error (.exception ("WebSocket request timeout for event: " ++ "agent:create"))⟩ ∧
    Contains ("WebSocket request timeout for event: " ++ "agent:create") "agent:create" :=
  socket_timeout clientOn rfl "agent:create" none

/-- C5: `_socket_request` on a client with no live connection raises
`"WebSocket is not enabled or connected"` immediately: no event is
emitted and no time is waited, whatever reply would have been
available. -/
theorem socket_no_connection (c : Client) (hh : c.sio = false)
    (event : String) (data : Option Json) (reply : Option (Nat × Json)) :
    socket_request c event data reply =
      ⟨[], [], 0, .error (.exception "WebSocket is not enabled or connected")⟩ :=
  socket_fail_of_no_sio c hh event data reply

/-- C5 witness: the immediate failure at a concrete client, even with a
reply pending. -/
theorem socket_no_connection_witness :
    socket_request clientOff "agent:create" none
        (some (5, okReply "agent" (Json.str "A"))) =
      ⟨[], [], 0, .error (.exception "WebSocket is not enabled or connected")⟩ :=
  socket_no_connection clientOff rfl "agent:create" none
    (some (5, okReply "agent" (Json.str "A")))

/-- C6: `on` appends to the registry list, allowing duplicates — the
same handler registered twice is invoked twice per dispatch — and `off`
removes only the first occurrence (identity match), so a handler
registered twice still fires exactly once after a single `off`. -/
theorem on_off_duplicate (reg : Registry) (event : String) (h : Nat)
    (l : List Nat) (hl : (reg event).getD [] = l) (hmem : h ∉ l)
    (run : Nat → Except String Unit) :
    («on» («on» reg event h) event h) event = some (l ++ [h, h]) ∧
    (trigger_event («on» («on» reg event h) event h) run event).1.count h = 2 ∧
    (off («on» («on» reg event h) event h) event h) event = some (l ++ [h]) ∧
    (trigger_event (off («on» («on» reg event h) event h) event h) run event).1 =
      l ++ [h] ∧
    (trigger_event (off («on» («on» reg event h) event h) event h) run event).1.count h
      = 1 := by
  have h1 : («on» reg event h) event = some (l ++ [h]) := by simp [«on», hl]
  have h2 : («on» («on» reg event h) event h) event = some (l ++ [h, h]) := by
    simp [«on», hl]
  have herase : (l ++ [h, h]).erase h = l ++ [h] := by
    rw [List.erase_append_right _ hmem]; simp
  have h3 : (off («on» («on» reg event h) event h) event h) event = some (l ++ [h]) := by
    simp only [off, h2]
    have : h ∈ l ++ [h, h] := by simp
    simp [this, herase]
  refine ⟨h2, ?_, h3, ?_, ?_⟩
  · simp [trigger_event, h2, runHandlers_fst, List.count_append,
      List.count_eq_zero.2 hmem]
  · simp [trigger_event, h3, runHandlers_fst]
  · simp [trigger_event, h3, runHandlers_fst, List.count_append,
      List.count_eq_zero.2 hmem]

/-- C6 witness: the duplicate/identity semantics starting from the
empty registry with handler `0`. -/
theorem on_off_duplicate_witness :
    («on» («on» (fun _ => none) "task_updated" 0) "task_updated" 0) "task_updated" =
      some ([] ++ [0, 0]) ∧
    (trigger_event («on» («on» (fun _ => none) "task_updated" 0) "task_updated" 0)
      (fun _ => .ok ()) "task_updated").1.count 0 = 2 ∧
    (off («on» («on» (fun _ => none) "task_updated" 0) "task_updated" 0)
      "task_updated" 0) "task_updated" = some ([] ++ [0]) ∧
    (trigger_event (off («on» («on» (fun _ => none) "task_updated" 0) "task_updated" 0)
      "task_updated" 0) (fun _ => .ok ()) "task_updated").1 = [] ++ [0] ∧
    (trigger_event (off («on» («on» (fun _ => none) "task_updated" 0) "task_updated" 0)
      "task_updated" 0) (fun _ => .ok ()) "task_updated").1.count 0 = 1 :=
  on_off_duplicate (fun _ => none) "task_updated" 0 [] rfl (by simp)
    (fun _ => .ok ())

/-- C7: `_trigger_event` invokes every handler registered for the event,
in registration order, whatever each handler does — a raising handler
does not stop later ones — and the failures are only logged locally:
the dispatch returns normally with exactly the raising handlers
recorded, and no error escapes to the caller. -/
theorem trigger_event_isolated (reg : Registry) (run : Nat → Except String Unit)
    (event : String) :
    (trigger_event reg run event).1 = (reg event).getD [] ∧
    (trigger_event reg run event).2 =
      ((reg event).getD []).filterMap
        (fun h => match run h with | .ok _ => none | .error m => some (h, m)) := by
  cases hre : reg event <;>
    simp [trigger_event, hre, runHandlers_fst, runHandlers_snd]

/-- C8, counterexample: the claim covers every non-2xx response, but
`raise_for_status` raises only for the 400–599 band.  A 304 final
response (a non-2xx status `requests` returns without raising), and
likewise a status ≥ 600, has its JSON body parsed and returned — no
error with the status and body is raised. -/
theorem http_non2xx_counterexample :
    (request clientOff "GET" "/health" none none
      (.response 304 (.jsonBody (.obj [("code", .str "X")])))).outcome =
      .ok (.obj [("code", .str "X")]) ∧
    (request clientOff "GET" "/health" none none
      (.response 600 (.jsonBody (.obj [("code", .str "X")])))).outcome =
      .ok (.obj [("code", .str "X")]) :=
  ⟨rfl, rfl⟩

/-- C8 (amended): a response whose status lies in `raise_for_status`'s
error band 400–599 with a JSON body makes `_request` raise an error
whose message contains both the status code and the
`json.dumps`-serialized body; a non-JSON body yields the raw text
instead; a transport failure carrying no response propagates its cause
unchanged; and a final response outside that band — 2xx, but also 3xx
or ≥ 600 — has its JSON body parsed and returned without raising. -/
theorem http_error_reporting (c : Client) (verb path : String) (data : Option Json)
    (params : Option (List (String × String))) (status : Nat) (hst : 400 ≤ status)
    (hst2 : status < 600) (status2 : Nat)
    (hout : ¬ (400 ≤ status2 ∧ status2 < 600)) (j : Json) (t : String)
    (cause : String) :
    (request c verb path data params (.response status (.jsonBody j))).outcome =
      .error (.exception ("API error: " ++ toString status ++ " - " ++ Json.dumps j)) ∧
    Contains ("API error: " ++ toString status ++ " - " ++ Json.dumps j)
      (toString status) ∧
    Contains ("API error: " ++ toString status ++ " - " ++ Json.dumps j)
      (Json.dumps j) ∧
    (request c verb path data params (.response status (.rawText t))).outcome =
      .error (.exception ("API error: " ++ toString status ++ " - " ++ t)) ∧
    (request c verb path data params (.noResponse cause)).outcome =
      .error (.netError cause) ∧
    (request c verb path data params (.response status2 (.jsonBody j))).outcome =
      .ok j := by
  have hband : 400 ≤ status ∧ status < 600 := ⟨hst, hst2⟩
  refine ⟨?_, ?_, ?_, ?_, ?_, ?_⟩
  · simp [request, hband]
  · exact ⟨"API error: ", " - " ++ Json.dumps j, String.append_assoc _ _ _⟩
  · exact ⟨"API error: " ++ toString status ++ " - ", "",
      (String.append_empty _).symm⟩
  · simp [request, hband]
  · simp [request]
  · simp [request, hout]

/-- C8 witness: status `404` with body `\x7b"code": "X"\x7d` produces the
message containing `404` and the serialized body; the raw-text and
no-response cases at concrete inputs; and the same body on status `304`
is returned parsed. -/
theorem http_error_reporting_witness :
    (request clientOff "GET" "/health" none none
      (.response 404 (.jsonBody (.obj [("code", .str "X")])))).outcome =
      .error (.exception ("API error: " ++ toString 404 ++ " - " ++
        Json.dumps (.obj [("code", .str "X")]))) ∧
    Contains ("API error: " ++ toString 404 ++ " - " ++
        Json.dumps (.obj [("code", .str "X")])) (toString 404) ∧
    Contains ("API error: " ++ toString 404 ++ " - " ++
        Json.dumps (.obj [("code", .str "X")]))
      (Json.dumps (.obj [("code", .str "X")])) ∧
    (request clientOff "GET" "/health" none none
      (.response 404 (.rawText "oops"))).outcome =
      .error (.exception ("API error: " ++ toString 404 ++ " - " ++ "oops")) ∧
    (request clientOff "GET" "/health" none none
      (.noResponse "connection refused")).outcome =
      .error (.netError "connection refused") ∧
    (request clientOff "GET" "/health" none none
      (.response 304 (.jsonBody (.obj [("code", .str "X")])))).outcome =
      .ok (.obj [("code", .str "X")]) :=
  http_error_reporting clientOff "GET" "/health" none none 404 (by decide)
    (by decide) 304 (by decide) (.obj [("code", .str "X")]) "oops"
    "connection refused"

/-- C9: for every facade method that extracts a named field over the
real-time path, a reply with a truthy `success` flag that lacks the
expected field makes the method raise the key-lookup error for that
field rather than return `None` or a default; for
`delete_agent`/`delete_task` the extracted field is the `success` flag
the branch just checked, so it can never be lacking and the extraction
returns exactly its value. -/
theorem missing_field_raises (c : Client) (hs : c.sio = true) :
    MissingFieldRaises c := by
  have key : ∀ (fs : List (String × Json)) (field ev : String) (payload : Option Json),
      optTruthy (Json.get (.obj fs) "success") = true →
      fs.lookup field = none →
      (extract field (socket_request c ev payload (some (0, .obj fs)))).outcome =
        .error (.keyError field) := by
    intro fs field ev payload h1 h2
    simp [socket_request, extract, hs, pollLoop_arrived, pollLoop_const_true, h1,
      Json.getItem, h2]
  have keyS : ∀ (fs : List (String × Json)) (v : Json) (ev : String)
      (payload : Option Json),
      fs.lookup "success" = some v → v.truthy = true →
      (extract "success" (socket_request c ev payload (some (0, .obj fs)))).outcome =
        .ok v := by
    intro fs v ev payload h1 h2
    simp [socket_request, extract, hs, pollLoop_arrived, pollLoop_const_true,
      Json.get, optTruthy, h1, h2, Json.getItem]
  refine ⟨?_, ?_, ?_, ?_, ?_, ?_, ?_, ?_, ?_, ?_, ?_, ?_, ?_, ?_, ?_, ?_, ?_⟩
  · intro fs config out h1 h2
    simp only [create_agent, hs, if_true]
    exact key fs "agent" "agent:create" (some config) h1 h2
  · intro fs agent_id out h1 h2
    simp only [get_agent, hs, if_true]
    exact key fs "agent" "agent:get" _ h1 h2
  · intro fs filter out h1 h2
    simp only [list_agents, hs, if_true]
    exact key fs "agents" "agent:list" _ h1 h2
  · intro fs agent_id config out h1 h2
    simp only [update_agent, hs, if_true]
    exact key fs "agent" "agent:update" _ h1 h2
  · intro fs v agent_id out h1 h2
    simp only [delete_agent, hs, if_true]
    exact keyS fs v "agent:delete" _ h1 h2
  · intro fs agent_id task out h1 h2
    simp only [run_agent, hs, if_true]
    exact key fs "result" "agent:run" _ h1 h2
  · intro fs title description deps out h1 h2
    simp only [create_task, hs, if_true]
    exact key fs "task" "task:create" _ h1 h2
  · intro fs task_id out h1 h2
    simp only [get_task, hs, if_true]
    exact key fs "task" "task:get" _ h1 h2
  · intro fs filter out h1 h2
    simp only [list_tasks, hs, if_true]
    exact key fs "tasks" "task:list" _ h1 h2
  · intro fs task_id updates out h1 h2
    simp only [update_task, hs, if_true]
    exact key fs "task" "task:update" _ h1 h2
  · intro fs v task_id out h1 h2
    simp only [delete_task, hs, if_true]
    exact keyS fs v "task:delete" _ h1 h2
  · intro fs task_id dep out h1 h2
    simp only [add_dependency, hs, if_true]
    exact key fs "task" "task:addDependency" _ h1 h2
  · intro fs task_id dep out h1 h2
    simp only [remove_dependency, hs, if_true]
    exact key fs "task" "task:removeDependency" _ h1 h2
  · intro fs out h1 h2
    simp only [get_next_task, hs, if_true]
    exact key fs "task" "task:getNext" _ h1 h2
  · intro fs out h1 h2
    simp only [list_tools, hs, if_true]
    exact key fs "tools" "tool:list" _ h1 h2
  · intro fs name params out h1 h2
    simp only [execute_tool, hs, if_true]
    exact key fs "result" "tool:execute" _ h1 h2
  · intro fs config out h1 h2
    have hk := key fs "agent" "agent:create" (some config) h1 h2
    simp only [create_agent, hs, if_true, hk]
    simp

/-- C9 witness: the full missing-field behaviour at the concrete live
client, together with two fully discharged instances: `create_agent` on
the successful reply lacking `agent` raises `KeyError "agent"`, and
`delete_agent` on the minimal successful reply returns the `success`
flag. -/
theorem missing_field_raises_witness :
    MissingFieldRaises clientOn ∧
    (create_agent clientOn (.obj []) (some (0, .obj [("success", .bool true)]))
      outOk).outcome = .error (.keyError "agent") ∧
    (delete_agent clientOn "a1" (some (0, .obj [("success", .bool true)]))
      outOk).outcome = .ok (.bool true) :=
  ⟨missing_field_raises clientOn rfl,
   (missing_field_raises clientOn rfl).1 [("success", .bool true)] (.obj []) outOk
     rfl rfl,
   (missing_field_raises clientOn rfl).2.2.2.2.1 [("success", .bool true)]
     (.bool true) "a1" outOk rfl rfl⟩

/-- C10: after `close`, the connection handle is `None` (`sio = false`),
a second `close` changes nothing, `_socket_request` on the closed client
fails immediately, and every domain method dispatches via HTTP; no
method modifies the handle, so this persists. -/
theorem close_disables_realtime (c : Client) :
    (close c).sio = false ∧
    close (close c) = close c ∧
    (∀ event data reply, socket_request (close c) event data reply =
      ⟨[], [], 0, .error (.exception "WebSocket is not enabled or connected")⟩) ∧
    HttpDispatch (close c) := by
  have hcs : (close c).sio = false := by
    cases hc : c.sio <;> simp [close, hc]
  refine ⟨hcs, ?_,
    fun event data reply => socket_fail_of_no_sio _ hcs event data reply,
    httpDispatch_of_no_sio _ hcs⟩
  cases hc : c.sio <;> simp [close, hc]

end SwarmMCP
